import Mathlib

/-!
Shallow embedding of `src/contracts/verm_staking.rs` (the VERM staking
program) and proofs about it.

Machine integers: the source computes over Rust `u64` with `checked_*`
arithmetic followed by `.unwrap()`.  We embed `u64` values as `Nat` together
with explicit `checked_*` operations returning `Option Nat` (`none` models
the arithmetic failure that `.unwrap()` turns into a panic).  An operation's
outcome is an `OpResult`: the pool and user account fields as written up to
the point the operation stopped (the source mutates the in-memory account
structs sequentially), plus `aborted`, which is `none` on `Ok(())` and
`some a` when the operation stopped early (a returned `StakeError`, a failed
token transfer propagated by `?`, or a panic from `.unwrap()`).

The external token transfer (`token::transfer` CPI) is modelled by a boolean
parameter `transferOk`: the embedding does not model token balances, only
whether the call succeeds, which is all the ledger logic observes.
The clock is passed in as the `slot` parameter (`Clock::get()?.slot`).
-/

namespace VermStaking

/-- Size bound of the source's `u64` machine integers: `2 ^ 64`. -/
def U64SIZE : Nat := 18446744073709551616

/-- Embeds Rust `u64::checked_add`: `none` exactly when the sum does not fit
in a `u64`. -/
def checked_add (a b : Nat) : Option Nat :=
  if a + b < U64SIZE then some (a + b) else none

/-- Embeds Rust `u64::checked_sub`: `none` exactly when the difference would
be negative. -/
def checked_sub (a b : Nat) : Option Nat :=
  if b ≤ a then some (a - b) else none

/-- Embeds Rust `u64::checked_mul`: `none` exactly when the product does not
fit in a `u64`. -/
def checked_mul (a b : Nat) : Option Nat :=
  if a * b < U64SIZE then some (a * b) else none

/-- Embeds Rust `u64::checked_div`: `none` exactly on division by zero. -/
def checked_div (a b : Nat) : Option Nat :=
  if b = 0 then none else some (a / b)

/-- Embeds the `StakeError` enum of the source (lines 375-385). -/
inductive StakeError
  | InsufficientAmount
  | InsufficientStake
  | NoRewards
  | Overflow
deriving DecidableEq, Repr

/-- How an operation stopped early: a returned `StakeError`, a failed
external token transfer propagated by `?`, or a panic from `.unwrap()` on a
failed checked-arithmetic step. -/
inductive Abort
  | err : StakeError → Abort
  | transferFailed
  | unwrapPanic
deriving DecidableEq, Repr

/-- Embeds the `StakePool` account struct (lines 335-342).  `authority` is an
opaque key, carried as a `Nat`. -/
structure StakePool where
  authority : Nat
  total_staked : Nat
  reward_rate : Nat
  bump : Nat
  last_update_slot : Nat
deriving DecidableEq, Repr

/-- Embeds the `UserAccount` account struct (lines 344-350). -/
structure UserAccount where
  authority : Nat
  amount_staked : Nat
  rewards_debt : Nat
  last_stake_slot : Nat
deriving DecidableEq, Repr

/-- Outcome of one operation: the pool and user account as written up to the
point the operation stopped, and how it stopped (`aborted = none` on
`Ok(())`). -/
structure OpResult where
  pool : StakePool
  user : UserAccount
  aborted : Option Abort
deriving DecidableEq, Repr

/-- Embeds `calculate_pending_rewards` (lines 171-196).  Each
`checked_*().unwrap()` step is a match whose `none` arm propagates the panic
as `none`. -/
def calculate_pending_rewards
    (amount_staked rewards_debt reward_rate slots_elapsed : Nat) : Option Nat :=
  if amount_staked = 0 ∨ slots_elapsed = 0 then
    some rewards_debt
  else
    match checked_mul amount_staked reward_rate with
    | none => none
    | some m1 =>
      match checked_div m1 10000 with
      | none => none
      | some annual_rewards =>
        match checked_mul annual_rewards slots_elapsed with
        | none => none
        | some m2 =>
          match checked_div m2 63072000 with
          | none => none
          | some time_rewards => checked_add rewards_debt time_rewards

/-- Embeds `calculate_apr_tier` (lines 198-212). -/
def calculate_apr_tier (amount_staked : Nat) : Nat :=
  let amount_tokens := amount_staked / 1000000
  if amount_tokens ≥ 10000 then 36900
  else if amount_tokens ≥ 5000 then 24600
  else if amount_tokens ≥ 1000 then 15300
  else if amount_tokens ≥ 500 then 9800
  else 3690

/-- Embeds the `initialize` instruction (lines 10-18): the source name is a
Lean keyword-adjacent identifier here, so the spec's interface name
`initializePool` is used.  Note the source sets `reward_rate = 24600`. -/
def initializePool (authority bump slot : Nat) : StakePool :=
  { authority := authority
    total_staked := 0
    reward_rate := 24600
    bump := bump
    last_update_slot := slot }

/-- Embeds the `create_user_account` instruction (lines 20-27). -/
def create_user_account (authority : Nat) : UserAccount :=
  { authority := authority
    amount_staked := 0
    rewards_debt := 0
    last_stake_slot := 0 }

/-- Embeds the `stake` instruction (lines 29-74), statement by statement:
minimum-amount check, pending-reward settlement, token transfer, pool
update, user update, APR-tier recomputation from the caller's new
`amount_staked`. -/
def stake (pool : StakePool) (user : UserAccount) (slot : Nat)
    (transferOk : Bool) (amount : Nat) : OpResult :=
  if amount < 100000000 then
    ⟨pool, user, some (Abort.err StakeError.InsufficientAmount)⟩
  else
    match calculate_pending_rewards user.amount_staked user.rewards_debt
        pool.reward_rate (slot - user.last_stake_slot) with
    | none => ⟨pool, user, some Abort.unwrapPanic⟩
    | some pending =>
      if transferOk = false then
        ⟨pool, user, some Abort.transferFailed⟩
      else
        match checked_add pool.total_staked amount with
        | none => ⟨pool, user, some Abort.unwrapPanic⟩
        | some newTotal =>
          let pool1 := { pool with total_staked := newTotal, last_update_slot := slot }
          match checked_add user.amount_staked amount with
          | none => ⟨pool1, user, some Abort.unwrapPanic⟩
          | some newStaked =>
            match checked_add user.rewards_debt pending with
            | none => ⟨pool1, { user with amount_staked := newStaked }, some Abort.unwrapPanic⟩
            | some newDebt =>
              let user1 := { user with
                amount_staked := newStaked
                rewards_debt := newDebt
                last_stake_slot := slot }
              ⟨{ pool1 with reward_rate := calculate_apr_tier user1.amount_staked },
               user1, none⟩

/-- Embeds the `unstake` instruction (lines 76-126): balance check,
pending-reward settlement, vault-signed transfer, pool update, user update
(`rewards_debt` is REPLACED by the settled pending value), APR-tier
recomputation from the caller's new `amount_staked`. -/
def unstake (pool : StakePool) (user : UserAccount) (slot : Nat)
    (transferOk : Bool) (amount : Nat) : OpResult :=
  if user.amount_staked < amount then
    ⟨pool, user, some (Abort.err StakeError.InsufficientStake)⟩
  else
    match calculate_pending_rewards user.amount_staked user.rewards_debt
        pool.reward_rate (slot - user.last_stake_slot) with
    | none => ⟨pool, user, some Abort.unwrapPanic⟩
    | some pending =>
      if transferOk = false then
        ⟨pool, user, some Abort.transferFailed⟩
      else
        match checked_sub pool.total_staked amount with
        | none => ⟨pool, user, some Abort.unwrapPanic⟩
        | some newTotal =>
          let pool1 := { pool with total_staked := newTotal, last_update_slot := slot }
          match checked_sub user.amount_staked amount with
          | none => ⟨pool1, user, some Abort.unwrapPanic⟩
          | some newStaked =>
            let user1 := { user with
              amount_staked := newStaked
              rewards_debt := pending
              last_stake_slot := slot }
            ⟨{ pool1 with reward_rate := calculate_apr_tier user1.amount_staked },
             user1, none⟩

/-- Embeds the `claim_rewards` instruction (lines 128-168): pending-reward
settlement, `NoRewards` check, vault-signed transfer of the pending amount,
`rewards_debt` reset to 0.  The pool account is never written. -/
def claim_rewards (pool : StakePool) (user : UserAccount) (slot : Nat)
    (transferOk : Bool) : OpResult :=
  match calculate_pending_rewards user.amount_staked user.rewards_debt
      pool.reward_rate (slot - user.last_stake_slot) with
  | none => ⟨pool, user, some Abort.unwrapPanic⟩
  | some pending =>
    if pending = 0 then
      ⟨pool, user, some (Abort.err StakeError.NoRewards)⟩
    else if transferOk = false then
      ⟨pool, user, some Abort.transferFailed⟩
    else
      ⟨pool, { user with rewards_debt := 0, last_stake_slot := slot }, none⟩

/-- Reference definition of `settleRewards`, written from the spec's words
in section 4.1: return the debt unchanged when nothing is staked or no time
elapsed, otherwise add `floor(floor(amountStaked * rewardRateBps / 10000) *
elapsedTimeUnits / 63072000)` to the debt, over unbounded integers. -/
def settleRewardsSpec
    (amountStaked rewardsDebt rewardRateBps elapsedTimeUnits : Nat) : Nat :=
  if amountStaked = 0 ∨ elapsedTimeUnits = 0 then
    rewardsDebt
  else
    rewardsDebt + amountStaked * rewardRateBps / 10000 * elapsedTimeUnits / 63072000

/-- Reference definition of `selectAprTierBps`, written from the spec's tier
table in section 4.1: whole tokens are `amountStaked / 10 ^ 6`, thresholds
evaluated highest first. -/
def selectAprTierBpsSpec (amountStaked : Nat) : Nat :=
  if amountStaked / 1000000 ≥ 10000 then 36900
  else if amountStaked / 1000000 ≥ 5000 then 24600
  else if amountStaked / 1000000 ≥ 1000 then 15300
  else if amountStaked / 1000000 ≥ 500 then 9800
  else 3690

/-! ## Helper lemmas about the accrual function -/

/-- With zero elapsed time the accrual function returns the debt unchanged. -/
theorem cpr_elapsed_zero (a d r : Nat) :
    calculate_pending_rewards a d r 0 = some d := by
  simp [calculate_pending_rewards]

/-- With nothing staked the accrual function returns the debt unchanged. -/
theorem cpr_staked_zero (d r e : Nat) :
    calculate_pending_rewards 0 d r e = some d := by
  simp [calculate_pending_rewards]

/-- Whenever the embedded accrual function returns a value (no panic), that
value is exactly the unbounded-integer reference value. -/
theorem cpr_some_spec (a d r e v : Nat)
    (h : calculate_pending_rewards a d r e = some v) :
    v = settleRewardsSpec a d r e := by
  unfold calculate_pending_rewards at h
  unfold settleRewardsSpec
  split at h
  · next hc =>
    rw [if_pos hc]
    exact ((Option.some.injEq _ _).mp h).symm
  · next hc =>
    rw [if_neg hc]
    rcases hm1 : checked_mul a r with _ | m1
    · simp [hm1] at h
    · rw [hm1] at h
      simp only [] at h
      rcases hd1 : checked_div m1 10000 with _ | annual
      · simp [hd1] at h
      · rw [hd1] at h
        simp only [] at h
        rcases hm2 : checked_mul annual e with _ | m2
        · simp [hm2] at h
        · rw [hm2] at h
          simp only [] at h
          rcases hd2 : checked_div m2 63072000 with _ | tr
          · simp [hd2] at h
          · rw [hd2] at h
            simp only [] at h
            simp only [checked_mul, checked_div, checked_add] at hm1 hd1 hm2 hd2 h
            split at hm1
            case isFalse => exact absurd hm1 (by simp)
            split at hm2
            case isFalse => exact absurd hm2 (by simp)
            split at h
            case isFalse => exact absurd h (by simp)
            simp_all

/-- The accrual function never lowers the debt: any returned value is at
least the `rewards_debt` argument. -/
theorem cpr_some_ge (a d r e v : Nat)
    (h : calculate_pending_rewards a d r e = some v) :
    d ≤ v := by
  have hs := cpr_some_spec a d r e v h
  unfold settleRewardsSpec at hs
  split at hs <;> omega

/-- The accrual function either panics or returns the reference value. -/
theorem cpr_none_or_spec (a d r e : Nat) :
    calculate_pending_rewards a d r e = none ∨
      calculate_pending_rewards a d r e = some (settleRewardsSpec a d r e) := by
  rcases h : calculate_pending_rewards a d r e with _ | v
  · exact Or.inl rfl
  · exact Or.inr (by rw [← cpr_some_spec a d r e v h])

/-! ## Success and failure characterizations of the three operations -/

/-- Successful `stake` written out: the pool gains `amount`, the caller's
stake gains `amount`, the settled pending value is ADDED to the existing
debt, and the pool rate is recomputed from the caller's new stake. -/
theorem stake_success_eq (pool : StakePool) (user : UserAccount) (slot X : Nat)
    (h : (stake pool user slot true X).aborted = none) :
    ∃ pending,
      calculate_pending_rewards user.amount_staked user.rewards_debt
          pool.reward_rate (slot - user.last_stake_slot) = some pending ∧
      100000000 ≤ X ∧
      stake pool user slot true X =
        ⟨⟨pool.authority, pool.total_staked + X,
          calculate_apr_tier (user.amount_staked + X), pool.bump, slot⟩,
         ⟨user.authority, user.amount_staked + X, user.rewards_debt + pending, slot⟩,
         none⟩ := by
  by_cases hX : X < 100000000
  · simp [stake, hX] at h
  · rcases hcpr : calculate_pending_rewards user.amount_staked user.rewards_debt
        pool.reward_rate (slot - user.last_stake_slot) with _ | pending
    · simp [stake, hX, hcpr] at h
    · by_cases h1 : pool.total_staked + X < U64SIZE
      · by_cases h2 : user.amount_staked + X < U64SIZE
        · by_cases h3 : user.rewards_debt + pending < U64SIZE
          · refine ⟨pending, rfl, by omega, ?_⟩
            simp [stake, hX, hcpr, checked_add, h1, h2, h3]
          · simp [stake, hX, hcpr, checked_add, h1, h2, h3] at h
        · simp [stake, hX, hcpr, checked_add, h1, h2] at h
      · simp [stake, hX, hcpr, checked_add, h1] at h

/-- Successful `unstake` written out: the pool and the caller each lose
`amount`, the debt is REPLACED by the settled pending value, and the pool
rate is recomputed from the caller's new stake. -/
theorem unstake_success_eq (pool : StakePool) (user : UserAccount) (slot X : Nat)
    (h : (unstake pool user slot true X).aborted = none) :
    ∃ pending,
      calculate_pending_rewards user.amount_staked user.rewards_debt
          pool.reward_rate (slot - user.last_stake_slot) = some pending ∧
      X ≤ user.amount_staked ∧ X ≤ pool.total_staked ∧
      unstake pool user slot true X =
        ⟨⟨pool.authority, pool.total_staked - X,
          calculate_apr_tier (user.amount_staked - X), pool.bump, slot⟩,
         ⟨user.authority, user.amount_staked - X, pending, slot⟩,
         none⟩ := by
  by_cases hX : user.amount_staked < X
  · simp [unstake, hX] at h
  · rcases hcpr : calculate_pending_rewards user.amount_staked user.rewards_debt
        pool.reward_rate (slot - user.last_stake_slot) with _ | pending
    · simp [unstake, hX, hcpr] at h
    · by_cases h1 : X ≤ pool.total_staked
      · refine ⟨pending, rfl, by omega, h1, ?_⟩
        simp [unstake, hX, hcpr, checked_sub, h1, show X ≤ user.amount_staked by omega]
      · simp [unstake, hX, hcpr, checked_sub, h1] at h

/-- Successful `claim_rewards` written out: the pool account is untouched
and the caller's debt is reset to 0. -/
theorem claim_success_eq (pool : StakePool) (user : UserAccount) (slot : Nat)
    (h : (claim_rewards pool user slot true).aborted = none) :
    ∃ pending,
      calculate_pending_rewards user.amount_staked user.rewards_debt
          pool.reward_rate (slot - user.last_stake_slot) = some pending ∧
      0 < pending ∧
      claim_rewards pool user slot true =
        ⟨pool, ⟨user.authority, user.amount_staked, 0, slot⟩, none⟩ := by
  rcases hcpr : calculate_pending_rewards user.amount_staked user.rewards_debt
      pool.reward_rate (slot - user.last_stake_slot) with _ | pending
  · simp [claim_rewards, hcpr] at h
  · by_cases hp : pending = 0
    · simp [claim_rewards, hcpr, hp] at h
    · refine ⟨pending, rfl, by omega, ?_⟩
      simp [claim_rewards, hcpr, hp]

/-- When the external transfer fails, `stake` writes nothing and aborts:
every statement that mutates the ledger comes after `token::transfer(...)?`
in the source. -/
theorem stake_fail_state (pool : StakePool) (user : UserAccount) (slot amount : Nat) :
    (stake pool user slot false amount).pool = pool ∧
    (stake pool user slot false amount).user = user ∧
    (stake pool user slot false amount).aborted ≠ none := by
  by_cases hX : amount < 100000000
  · simp [stake, hX]
  · rcases hcpr : calculate_pending_rewards user.amount_staked user.rewards_debt
        pool.reward_rate (slot - user.last_stake_slot) with _ | pending <;>
      simp [stake, hX, hcpr]

/-- When the external transfer fails, `unstake` writes nothing and aborts. -/
theorem unstake_fail_state (pool : StakePool) (user : UserAccount) (slot amount : Nat) :
    (unstake pool user slot false amount).pool = pool ∧
    (unstake pool user slot false amount).user = user ∧
    (unstake pool user slot false amount).aborted ≠ none := by
  by_cases hX : user.amount_staked < amount
  · simp [unstake, hX]
  · rcases hcpr : calculate_pending_rewards user.amount_staked user.rewards_debt
        pool.reward_rate (slot - user.last_stake_slot) with _ | pending
    · simp [unstake, hX, hcpr]
    · simp [unstake, hX, hcpr]

/-- When the external transfer fails, `claim_rewards` writes nothing and
aborts. -/
theorem claim_fail_state (pool : StakePool) (user : UserAccount) (slot : Nat) :
    (claim_rewards pool user slot false).pool = pool ∧
    (claim_rewards pool user slot false).user = user ∧
    (claim_rewards pool user slot false).aborted ≠ none := by
  rcases hcpr : calculate_pending_rewards user.amount_staked user.rewards_debt
      pool.reward_rate (slot - user.last_stake_slot) with _ | pending
  · simp [claim_rewards, hcpr]
  · by_cases hp : pending = 0 <;> simp [claim_rewards, hcpr, hp]

/-! ## The claims -/

/-- Claim C2: for every operation (stake, unstake, claimRewards), if the
external token transfer fails, the operation returns an error and no field
of the pool ledger or the caller's user ledger is changed — full rollback,
no partial mutation.  In the source every ledger write comes after the
`token::transfer(...)?` call, so a failed transfer leaves both accounts
exactly as they were. -/
theorem c2_transfer_failure_rollback :
    ∀ (pool : StakePool) (user : UserAccount) (slot amount : Nat),
      ((stake pool user slot false amount).pool = pool ∧
       (stake pool user slot false amount).user = user ∧
       (stake pool user slot false amount).aborted ≠ none) ∧
      ((unstake pool user slot false amount).pool = pool ∧
       (unstake pool user slot false amount).user = user ∧
       (unstake pool user slot false amount).aborted ≠ none) ∧
      ((claim_rewards pool user slot false).pool = pool ∧
       (claim_rewards pool user slot false).user = user ∧
       (claim_rewards pool user slot false).aborted ≠ none) :=
  fun pool user slot amount =>
    ⟨stake_fail_state pool user slot amount,
     unstake_fail_state pool user slot amount,
     claim_fail_state pool user slot⟩

/-- Claim C2 witness at a concrete input: a failed transfer during a stake
of 100000000 leaves the concrete pool and user untouched and aborts. -/
theorem c2_transfer_failure_rollback_witness :
    (stake ⟨1, 7, 24600, 3, 9⟩ ⟨2, 5, 11, 4⟩ 20 false 100000000).pool = ⟨1, 7, 24600, 3, 9⟩ ∧
    (stake ⟨1, 7, 24600, 3, 9⟩ ⟨2, 5, 11, 4⟩ 20 false 100000000).user = ⟨2, 5, 11, 4⟩ ∧
    (stake ⟨1, 7, 24600, 3, 9⟩ ⟨2, 5, 11, 4⟩ 20 false 100000000).aborted ≠ none :=
  (c2_transfer_failure_rollback ⟨1, 7, 24600, 3, 9⟩ ⟨2, 5, 11, 4⟩ 20 100000000).1

/-- Claim C3: the accrual function `calculate_pending_rewards` equals the
reference definition `settleRewardsSpec` whenever it returns (it returns the
debt unchanged when nothing is staked or no time elapsed; otherwise the debt
plus the twice-floored time reward, multiplication before division at each
step), and on the spec's worked example it returns 2460000000. -/
theorem c3_settle_rewards_spec :
    (∀ a d r e v, calculate_pending_rewards a d r e = some v →
      v = settleRewardsSpec a d r e) ∧
    (∀ a d r, calculate_pending_rewards a d r 0 = some d) ∧
    (∀ d r e, calculate_pending_rewards 0 d r e = some d) ∧
    calculate_pending_rewards 1000000000 0 24600 63072000 = some 2460000000 :=
  ⟨cpr_some_spec, cpr_elapsed_zero, cpr_staked_zero, by decide⟩

/-- Claim C3 witness: the spec's worked example, through the theorem. -/
theorem c3_settle_rewards_spec_witness :
    (2460000000 : Nat) = settleRewardsSpec 1000000000 0 24600 63072000 :=
  c3_settle_rewards_spec.1 1000000000 0 24600 63072000 2460000000 (by decide)

/-- Claim C5 as amended: initializePool creates the pool ledger with
`totalStaked = 0` but with `rewardRateBps = 24600` (246% APR, the
5000-token tier), NOT the lowest tier's 3690. -/
theorem c5_initialize_pool :
    ∀ authority bump slot : Nat,
      (initializePool authority bump slot).reward_rate = 24600 ∧
      (initializePool authority bump slot).total_staked = 0 :=
  fun _ _ _ => ⟨rfl, rfl⟩

/-- Claim C5 counterexample: the pool is created with rate 24600, not the
lowest tier's 3690 the claim states. -/
theorem c5_initialize_pool_counterexample :
    (initializePool 0 0 0).reward_rate = 24600 ∧
    (initializePool 0 0 0).reward_rate ≠ 3690 ∧
    calculate_apr_tier 0 = 3690 := by decide

/-- Claim C7: `calculate_apr_tier` is exactly the spec's step function on
whole tokens (integer division by 10^6), thresholds checked highest first,
no interpolation; including the spec's boundary examples. -/
theorem c7_apr_tier_spec :
    (∀ n, calculate_apr_tier n = selectAprTierBpsSpec n) ∧
    calculate_apr_tier 10000000000 = 36900 ∧
    calculate_apr_tier 9999000000 = 24600 ∧
    calculate_apr_tier 4999999999 = 15300 ∧
    calculate_apr_tier 999999999 = 9800 ∧
    calculate_apr_tier 499000000 = 3690 :=
  ⟨fun _ => rfl, by decide, by decide, by decide, by decide, by decide⟩

/-- Claim C9: `stake` fails with `InsufficientAmount` exactly when the
amount is below 100000000 base units (100 whole tokens), whatever the rest
of the state and the transfer outcome. -/
theorem c9_minimum_stake :
    ∀ (pool : StakePool) (user : UserAccount) (slot : Nat) (t : Bool) (amount : Nat),
      (stake pool user slot t amount).aborted =
          some (Abort.err StakeError.InsufficientAmount) ↔
        amount < 100000000 := by
  intro pool user slot t amount
  by_cases hX : amount < 100000000
  · simp [stake, hX]
  · simp only [hX, iff_false]
    rcases hcpr : calculate_pending_rewards user.amount_staked user.rewards_debt
        pool.reward_rate (slot - user.last_stake_slot) with _ | pending
    · simp [stake, hX, hcpr]
    · cases t
      · simp [stake, hX, hcpr]
      · rcases ha1 : checked_add pool.total_staked amount with _ | nt
        · simp [stake, hX, hcpr, ha1]
        · rcases ha2 : checked_add user.amount_staked amount with _ | ns
          · simp [stake, hX, hcpr, ha1, ha2]
          · rcases ha3 : checked_add user.rewards_debt pending with _ | nd <;>
              simp [stake, hX, hcpr, ha1, ha2, ha3]

/-- Claim C9 witness: 99999999 is rejected with `InsufficientAmount` and
100000000 is not, at a concrete state. -/
theorem c9_minimum_stake_witness :
    ((stake ⟨0, 0, 24600, 0, 0⟩ ⟨1, 0, 0, 0⟩ 5 true 99999999).aborted =
        some (Abort.err StakeError.InsufficientAmount) ↔ (99999999 : Nat) < 100000000) ∧
    ((stake ⟨0, 0, 24600, 0, 0⟩ ⟨1, 0, 0, 0⟩ 5 true 100000000).aborted =
        some (Abort.err StakeError.InsufficientAmount) ↔ (100000000 : Nat) < 100000000) :=
  ⟨c9_minimum_stake ⟨0, 0, 24600, 0, 0⟩ ⟨1, 0, 0, 0⟩ 5 true 99999999,
   c9_minimum_stake ⟨0, 0, 24600, 0, 0⟩ ⟨1, 0, 0, 0⟩ 5 true 100000000⟩

/-- Claim C1 as amended: stake `X` then immediately unstake `X` at the same
time marker (elapsed 0, both succeeding) restores `totalStaked` and the
caller's `amountStaked` to their pre-stake values, but leaves `rewardsDebt`
at exactly TWICE its pre-stake value: stake adds the settled pending value
(which at elapsed 0 is the whole prior debt) onto the existing debt, and the
unstake then replaces the debt with that doubled settlement.  `rewardsDebt`
is unchanged only when it was 0 before the stake. -/
theorem c1_roundtrip :
    ∀ (pool : StakePool) (user : UserAccount) (slot X : Nat),
      user.last_stake_slot = slot →
      (stake pool user slot true X).aborted = none →
      (unstake (stake pool user slot true X).pool (stake pool user slot true X).user
          slot true X).aborted = none →
      (unstake (stake pool user slot true X).pool (stake pool user slot true X).user
          slot true X).pool.total_staked = pool.total_staked ∧
      (unstake (stake pool user slot true X).pool (stake pool user slot true X).user
          slot true X).user.amount_staked = user.amount_staked ∧
      (unstake (stake pool user slot true X).pool (stake pool user slot true X).user
          slot true X).user.rewards_debt = 2 * user.rewards_debt := by
  intro pool user slot X hslot h1 h2
  obtain ⟨p1, hcpr1, hX, heq1⟩ := stake_success_eq pool user slot X h1
  rw [hslot, Nat.sub_self, cpr_elapsed_zero] at hcpr1
  replace hcpr1 := (Option.some.injEq _ _).mp hcpr1
  rw [heq1] at h2 ⊢
  obtain ⟨p2, hcpr2, hX2, hXt, heq2⟩ := unstake_success_eq _ _ slot X h2
  rw [heq2]
  simp only [Nat.sub_self, cpr_elapsed_zero] at hcpr2
  replace hcpr2 := (Option.some.injEq _ _).mp hcpr2
  refine ⟨by simp, by simp, ?_⟩
  simp
  omega

/-- Claim C1 witness: a concrete round trip (pre-stake debt 5) restores the
totals and ends with debt 10 = 2 * 5. -/
theorem c1_roundtrip_witness :
    (unstake (stake ⟨0, 0, 3690, 0, 0⟩ ⟨0, 0, 5, 0⟩ 0 true 100000000).pool
        (stake ⟨0, 0, 3690, 0, 0⟩ ⟨0, 0, 5, 0⟩ 0 true 100000000).user
        0 true 100000000).pool.total_staked = 0 ∧
    (unstake (stake ⟨0, 0, 3690, 0, 0⟩ ⟨0, 0, 5, 0⟩ 0 true 100000000).pool
        (stake ⟨0, 0, 3690, 0, 0⟩ ⟨0, 0, 5, 0⟩ 0 true 100000000).user
        0 true 100000000).user.amount_staked = 0 ∧
    (unstake (stake ⟨0, 0, 3690, 0, 0⟩ ⟨0, 0, 5, 0⟩ 0 true 100000000).pool
        (stake ⟨0, 0, 3690, 0, 0⟩ ⟨0, 0, 5, 0⟩ 0 true 100000000).user
        0 true 100000000).user.rewards_debt = 10 :=
  c1_roundtrip ⟨0, 0, 3690, 0, 0⟩ ⟨0, 0, 5, 0⟩ 0 100000000 rfl (by decide) (by decide)

/-- Claim C1 counterexample: with pre-stake debt 5 (and everything else at
elapsed 0), stake 100000000 then unstake 100000000 both succeed and restore
the totals, but the caller's `rewardsDebt` ends at 10, not its pre-stake
value 5 — the claim's "rewardsDebt unchanged" is false on the code. -/
theorem c1_roundtrip_counterexample :
    (stake ⟨0, 0, 3690, 0, 0⟩ ⟨0, 0, 5, 0⟩ 0 true 100000000).aborted = none ∧
    (unstake (stake ⟨0, 0, 3690, 0, 0⟩ ⟨0, 0, 5, 0⟩ 0 true 100000000).pool
        (stake ⟨0, 0, 3690, 0, 0⟩ ⟨0, 0, 5, 0⟩ 0 true 100000000).user
        0 true 100000000).aborted = none ∧
    (unstake (stake ⟨0, 0, 3690, 0, 0⟩ ⟨0, 0, 5, 0⟩ 0 true 100000000).pool
        (stake ⟨0, 0, 3690, 0, 0⟩ ⟨0, 0, 5, 0⟩ 0 true 100000000).user
        0 true 100000000).pool.total_staked = 0 ∧
    (unstake (stake ⟨0, 0, 3690, 0, 0⟩ ⟨0, 0, 5, 0⟩ 0 true 100000000).pool
        (stake ⟨0, 0, 3690, 0, 0⟩ ⟨0, 0, 5, 0⟩ 0 true 100000000).user
        0 true 100000000).user.amount_staked = 0 ∧
    (unstake (stake ⟨0, 0, 3690, 0, 0⟩ ⟨0, 0, 5, 0⟩ 0 true 100000000).pool
        (stake ⟨0, 0, 3690, 0, 0⟩ ⟨0, 0, 5, 0⟩ 0 true 100000000).user
        0 true 100000000).user.rewards_debt = 10 ∧
    (unstake (stake ⟨0, 0, 3690, 0, 0⟩ ⟨0, 0, 5, 0⟩ 0 true 100000000).pool
        (stake ⟨0, 0, 3690, 0, 0⟩ ⟨0, 0, 5, 0⟩ 0 true 100000000).user
        0 true 100000000).user.rewards_debt ≠ 5 := by decide

/-- Claim C4 as amended: every add, sub, mul and div in the accrual and
ledger-update paths (other than the elapsed-time subtraction) is a checked
u64 operation, so an unrepresentable result never wraps silently: whenever
the accrual function returns, its value is the exact unbounded-integer
reference value.  But on overflow the code panics through `.unwrap()` on
the `None`, so no operation ever produces the declared `Overflow` error
variant, and the intermediate products are 64-bit, not 128-bit. -/
theorem c4_checked_arithmetic :
    (∀ a d r e, calculate_pending_rewards a d r e = none ∨
      calculate_pending_rewards a d r e = some (settleRewardsSpec a d r e)) ∧
    (∀ (pool : StakePool) (user : UserAccount) (slot : Nat) (t : Bool) (amt : Nat),
      (stake pool user slot t amt).aborted ≠ some (Abort.err StakeError.Overflow)) ∧
    (∀ (pool : StakePool) (user : UserAccount) (slot : Nat) (t : Bool) (amt : Nat),
      (unstake pool user slot t amt).aborted ≠ some (Abort.err StakeError.Overflow)) ∧
    (∀ (pool : StakePool) (user : UserAccount) (slot : Nat) (t : Bool),
      (claim_rewards pool user slot t).aborted ≠ some (Abort.err StakeError.Overflow)) := by
  refine ⟨cpr_none_or_spec, ?_, ?_, ?_⟩
  · intro pool user slot t amt
    by_cases hX : amt < 100000000
    · simp [stake, hX]
    · rcases hcpr : calculate_pending_rewards user.amount_staked user.rewards_debt
          pool.reward_rate (slot - user.last_stake_slot) with _ | pending
      · simp [stake, hX, hcpr]
      · cases t
        · simp [stake, hX, hcpr]
        · rcases ha1 : checked_add pool.total_staked amt with _ | nt
          · simp [stake, hX, hcpr, ha1]
          · rcases ha2 : checked_add user.amount_staked amt with _ | ns
            · simp [stake, hX, hcpr, ha1, ha2]
            · rcases ha3 : checked_add user.rewards_debt pending with _ | nd <;>
                simp [stake, hX, hcpr, ha1, ha2, ha3]
  · intro pool user slot t amt
    by_cases hX : user.amount_staked < amt
    · simp [unstake, hX]
    · rcases hcpr : calculate_pending_rewards user.amount_staked user.rewards_debt
          pool.reward_rate (slot - user.last_stake_slot) with _ | pending
      · simp [unstake, hX, hcpr]
      · cases t
        · simp [unstake, hX, hcpr]
        · rcases hs1 : checked_sub pool.total_staked amt with _ | nt
          · simp [unstake, hX, hcpr, hs1]
          · rcases hs2 : checked_sub user.amount_staked amt with _ | ns <;>
              simp [unstake, hX, hcpr, hs1, hs2]
  · intro pool user slot t
    rcases hcpr : calculate_pending_rewards user.amount_staked user.rewards_debt
        pool.reward_rate (slot - user.last_stake_slot) with _ | pending
    · simp [claim_rewards, hcpr]
    · by_cases hp : pending = 0
      · simp [claim_rewards, hcpr, hp]
      · cases t <;> simp [claim_rewards, hcpr, hp]

/-- Claim C4 witness: the accrual function at a concrete input, through the
theorem. -/
theorem c4_checked_arithmetic_witness :
    calculate_pending_rewards 1000000000 0 24600 63072000 = none ∨
    calculate_pending_rewards 1000000000 0 24600 63072000 =
      some (settleRewardsSpec 1000000000 0 24600 63072000) :=
  c4_checked_arithmetic.1 1000000000 0 24600 63072000

/-- Claim C4 counterexample: a large but representable stake (10^13 base
units, ten million whole tokens, at the 36900 bps tier over one year) makes
the second 64-bit product unrepresentable; the operation then aborts with a
panic, NOT with the declared `Overflow` error the claim requires. -/
theorem c4_overflow_counterexample :
    calculate_pending_rewards 10000000000000 0 36900 63072000 = none ∧
    (stake ⟨0, 0, 36900, 0, 0⟩ ⟨0, 10000000000000, 0, 0⟩ 63072000 true 100000000).aborted =
      some Abort.unwrapPanic ∧
    (stake ⟨0, 0, 36900, 0, 0⟩ ⟨0, 10000000000000, 0, 0⟩ 63072000 true 100000000).aborted ≠
      some (Abort.err StakeError.Overflow) ∧
    U64SIZE ≤ 10000000000000 * 36900 / 10000 * 63072000 := by decide

/-- Claim C6: after every successful stake and every successful unstake,
the pool-wide `reward_rate` equals `calculate_apr_tier` applied to the
triggering caller's new `amount_staked` (not to the pool's aggregate
`total_staked`). -/
theorem c6_apr_from_caller_stake :
    ∀ (pool : StakePool) (user : UserAccount) (slot : Nat) (t : Bool) (amt : Nat),
      ((stake pool user slot t amt).aborted = none →
        (stake pool user slot t amt).pool.reward_rate =
          calculate_apr_tier (stake pool user slot t amt).user.amount_staked) ∧
      ((unstake pool user slot t amt).aborted = none →
        (unstake pool user slot t amt).pool.reward_rate =
          calculate_apr_tier (unstake pool user slot t amt).user.amount_staked) := by
  intro pool user slot t amt
  constructor
  · intro h
    cases t
    · exact absurd h (stake_fail_state pool user slot amt).2.2
    · obtain ⟨p, hcpr, hX, heq⟩ := stake_success_eq pool user slot amt h
      rw [heq]
  · intro h
    cases t
    · exact absurd h (unstake_fail_state pool user slot amt).2.2
    · obtain ⟨p, hcpr, hX, hXt, heq⟩ := unstake_success_eq pool user slot amt h
      rw [heq]

/-- Claim C6 witness: a concrete successful stake whose caller ends with
10000 whole tokens while the pool holds 500000 whole tokens; the pool rate
is the caller-derived tier. -/
theorem c6_apr_from_caller_stake_witness :
    (stake ⟨0, 500000000000, 3690, 0, 0⟩ ⟨1, 0, 0, 0⟩ 5 true 10000000000).pool.reward_rate =
      calculate_apr_tier
        (stake ⟨0, 500000000000, 3690, 0, 0⟩ ⟨1, 0, 0, 0⟩ 5 true 10000000000).user.amount_staked :=
  (c6_apr_from_caller_stake ⟨0, 500000000000, 3690, 0, 0⟩ ⟨1, 0, 0, 0⟩ 5 true
    10000000000).1 (by decide)

/-- Claim C8: `claim_rewards` fails with `NoRewards` exactly when the
settled pending value is 0; in particular it fails immediately after
`create_user_account` with no stake ever made; and on success it resets the
caller's `rewards_debt` to 0 and leaves the pool's `total_staked`
unchanged. -/
theorem c8_claim_rewards_iff :
    (∀ (pool : StakePool) (user : UserAccount) (slot : Nat) (t : Bool),
      ((claim_rewards pool user slot t).aborted = some (Abort.err StakeError.NoRewards) ↔
        calculate_pending_rewards user.amount_staked user.rewards_debt
          pool.reward_rate (slot - user.last_stake_slot) = some 0)) ∧
    (∀ (pool : StakePool) (slot : Nat) (t : Bool) (a : Nat),
      (claim_rewards pool (create_user_account a) slot t).aborted =
        some (Abort.err StakeError.NoRewards)) ∧
    (∀ (pool : StakePool) (user : UserAccount) (slot : Nat) (t : Bool),
      (claim_rewards pool user slot t).aborted = none →
        (claim_rewards pool user slot t).user.rewards_debt = 0 ∧
        (claim_rewards pool user slot t).pool.total_staked = pool.total_staked) := by
  refine ⟨?_, ?_, ?_⟩
  · intro pool user slot t
    rcases hcpr : calculate_pending_rewards user.amount_staked user.rewards_debt
        pool.reward_rate (slot - user.last_stake_slot) with _ | pending
    · simp [claim_rewards, hcpr]
    · by_cases hp : pending = 0
      · subst hp
        simp [claim_rewards, hcpr]
      · cases t <;> simp [claim_rewards, hcpr, hp]
  · intro pool slot t a
    simp [claim_rewards, create_user_account, calculate_pending_rewards]
  · intro pool user slot t h
    cases t
    · exact absurd h (claim_fail_state pool user slot).2.2
    · obtain ⟨p, hcpr, hp, heq⟩ := claim_success_eq pool user slot h
      rw [heq]
      exact ⟨rfl, rfl⟩

/-- Claim C8 witness: claiming straight after `create_user_account` fails
with `NoRewards`, through the theorem. -/
theorem c8_claim_rewards_iff_witness :
    (claim_rewards ⟨0, 0, 24600, 0, 0⟩ (create_user_account 9) 77 true).aborted =
      some (Abort.err StakeError.NoRewards) :=
  c8_claim_rewards_iff.2.1 ⟨0, 0, 24600, 0, 0⟩ 77 true 9

/-- Claim C10: the caller's `rewards_debt` never decreases except through a
successful claim: the accrual function returns at least its debt argument,
a successful stake sets the debt to the old debt plus the settled pending
value (which is at least the old debt), a successful unstake replaces the
debt with the settled pending value (at least the old debt), and a
successful claim sets it to exactly 0. -/
theorem c10_debt_never_decreases :
    (∀ a d r e v, calculate_pending_rewards a d r e = some v → d ≤ v) ∧
    (∀ (pool : StakePool) (user : UserAccount) (slot : Nat) (t : Bool) (X : Nat),
      (stake pool user slot t X).aborted = none →
      ∃ pending,
        calculate_pending_rewards user.amount_staked user.rewards_debt
          pool.reward_rate (slot - user.last_stake_slot) = some pending ∧
        (stake pool user slot t X).user.rewards_debt = user.rewards_debt + pending ∧
        user.rewards_debt ≤ (stake pool user slot t X).user.rewards_debt) ∧
    (∀ (pool : StakePool) (user : UserAccount) (slot : Nat) (t : Bool) (X : Nat),
      (unstake pool user slot t X).aborted = none →
      ∃ pending,
        calculate_pending_rewards user.amount_staked user.rewards_debt
          pool.reward_rate (slot - user.last_stake_slot) = some pending ∧
        (unstake pool user slot t X).user.rewards_debt = pending ∧
        user.rewards_debt ≤ pending) ∧
    (∀ (pool : StakePool) (user : UserAccount) (slot : Nat) (t : Bool),
      (claim_rewards pool user slot t).aborted = none →
        (claim_rewards pool user slot t).user.rewards_debt = 0) := by
  refine ⟨cpr_some_ge, ?_, ?_, ?_⟩
  · intro pool user slot t X h
    cases t
    · exact absurd h (stake_fail_state pool user slot X).2.2
    · obtain ⟨p, hcpr, hX, heq⟩ := stake_success_eq pool user slot X h
      refine ⟨p, hcpr, by rw [heq], by rw [heq]; simp⟩
  · intro pool user slot t X h
    cases t
    · exact absurd h (unstake_fail_state pool user slot X).2.2
    · obtain ⟨p, hcpr, hX, hXt, heq⟩ := unstake_success_eq pool user slot X h
      exact ⟨p, hcpr, by rw [heq], cpr_some_ge _ _ _ _ _ hcpr⟩
  · intro pool user slot t h
    cases t
    · exact absurd h (claim_fail_state pool user slot).2.2
    · obtain ⟨p, hcpr, hp, heq⟩ := claim_success_eq pool user slot h
      rw [heq]

/-- Claim C10 witness: a concrete successful claim resets the debt to 0,
through the theorem. -/
theorem c10_debt_never_decreases_witness :
    (claim_rewards ⟨0, 0, 24600, 0, 0⟩ ⟨1, 1000000000, 0, 0⟩ 63072000 true).user.rewards_debt = 0 :=
  c10_debt_never_decreases.2.2.2 ⟨0, 0, 24600, 0, 0⟩ ⟨1, 1000000000, 0, 0⟩ 63072000 true
    (by decide)

/-- Claim C5 witness: the theorem at a concrete input. -/
theorem c5_initialize_pool_witness :
    (initializePool 3 4 5).reward_rate = 24600 ∧ (initializePool 3 4 5).total_staked = 0 :=
  c5_initialize_pool 3 4 5

/-- Claim C7 witness: the theorem's refinement component at the top tier
boundary. -/
theorem c7_apr_tier_spec_witness :
    calculate_apr_tier 10000000000 = selectAprTierBpsSpec 10000000000 :=
  c7_apr_tier_spec.1 10000000000

end VermStaking
